import Mathlib

/-!
Shallow embedding of src/compare_data_quality.py.

Conventions used throughout:
* Python ints are modelled as Lean Int (Python integers are unbounded).
* A JSON field that the code only tests for truthiness (metadata,
  cached_file_url, price_details, value of an Alchemy transfer, imageUrl,
  traits, a floor-price response) is modelled as Bool.
* Parsed timestamps (datetime.fromisoformat results) are modelled as Int;
  only their ordering is used by the code.
* Pagination cursors / continuations are Option String; Python falsiness
  (None or the empty string) is the loop-exit test.
* A network fetch that can raise is modelled as (Nat -> Except Unit resp):
  the response to the i-th request, or an exception.  The bare while-True
  loops of the source carry no bound, so each loop is given explicit fuel;
  a result of none means the loop did not finish within that fuel.
-/

def NULL_ADDRESS : String := "0x0000000000000000000000000000000000000000"

def PROCESS_COUNT : Nat := 64

/-- Dataclass ContractStats of compare_data_quality.py (all counters default 0,
has_floor_price defaults False). -/
structure ContractStats where
  num_nfts : Int := 0
  num_has_metadata : Int := 0
  num_has_cached_image : Int := 0
  num_sale_transactions : Int := 0
  has_floor_price : Bool := false
deriving DecidableEq

/-- The freshly constructed ContractStats() value. -/
def ContractStats0 : ContractStats := {}

/-- Dataclass CompareContractStats: the per-address record built in _run_thread.
In the source the four provider fields default to None but are always supplied;
they are modelled as plain fields. -/
structure CompareContractStats where
  address : String
  slug : Option String := none
  token_supply : Option Int := none
  nftport : ContractStats := ContractStats0
  alchemy : ContractStats := ContractStats0
  moralis : ContractStats := ContractStats0
  quicknode : ContractStats := ContractStats0
deriving DecidableEq

/-- Dataclass GlobalContractsStats (per-provider global totals). -/
structure GlobalContractsStats where
  total_num_nfts : Int := 0
  total_num_has_metadata : Int := 0
  total_num_has_cached_image : Int := 0
  total_num_sale_transactions : Int := 0
  total_collections_floor_price_found : Int := 0
deriving DecidableEq

/-- Dataclass GlobalCompareContractStats.  In Python its four provider fields
have dataclass defaults GlobalContractsStats() that are evaluated once at class
definition time and therefore shared by every instance that does not override
them; that sharing is modelled explicitly by GlobalDefaults below. -/
structure GlobalCompareContractStats where
  total_num_collections : Int := 0
  total_token_supply : Int := 0
  nftport : GlobalContractsStats := {}
  alchemy : GlobalContractsStats := {}
  moralis : GlobalContractsStats := {}
  quicknode : GlobalContractsStats := {}
deriving DecidableEq

/-! ## Provider response shapes (listing endpoints) -/

/-- One element of the "nfts" array of an NFTPort listing response; the code
reads nft.get("metadata") and nft.get("cached_file_url") for truthiness only. -/
structure NftportNft where
  metadata : Bool
  cached_file_url : Bool
deriving DecidableEq

/-- An NFTPort listing response: the code reads response.get("nfts", []). -/
structure NftportListResp where
  nfts : List NftportNft
deriving DecidableEq

/-- True when the string contains "res.cloudinary.com" as a substring
(the Python test "res.cloudinary.com" in gateway). -/
def containsCloudinary (s : String) : Bool :=
  decide ("res.cloudinary.com".data <:+: s.data)

/-- One element of the "media" array of an Alchemy NFT; gateway == "" stands
for a missing/falsy gateway value. -/
structure AlchemyMedia where
  gateway : String
deriving DecidableEq

/-- One element of the "nfts" array of an Alchemy listing response. -/
structure AlchemyNft where
  metadata : Bool
  media : List AlchemyMedia
deriving DecidableEq

/-- An Alchemy getNFTsForCollection response: "nfts" and "nextToken". -/
structure AlchemyListResp where
  nfts : List AlchemyNft
  nextToken : Option String
deriving DecidableEq

/-- One element of the "result" array of a Moralis listing response. -/
structure MoralisNft where
  metadata : Bool
deriving DecidableEq

/-- A Moralis listing response: "result" array and "cursor". -/
structure MoralisListResp where
  result : List MoralisNft
  cursor : Option String
deriving DecidableEq

/-- One element of result.tokens of a QuickNode response; the code reads
nft.get("imageUrl") and nft.get("traits") for truthiness. -/
structure QuicknodeNft where
  imageUrl : Bool
  traits : Bool
deriving DecidableEq

/-- A QuickNode qn_fetchNFTsByCollection response: result.tokens. -/
structure QuicknodeListResp where
  tokens : List QuicknodeNft
deriving DecidableEq

/-- Python falsiness of a cursor/continuation string: None or "". -/
def isFalsyCursor : Option String → Bool
  | none => true
  | some s => s == ""

/-! ## The _crunch_* accumulators (lines 291-330) -/

/-- Loop body of _crunch_nftport_stats for one nft. -/
def nftportNftStep (stats : ContractStats) (nft : NftportNft) : ContractStats :=
  let stats :=
    if nft.metadata then
      { stats with num_has_metadata := stats.num_has_metadata + 1 }
    else stats
  let stats :=
    if nft.cached_file_url then
      { stats with num_has_cached_image := stats.num_has_cached_image + 1 }
    else stats
  { stats with num_nfts := stats.num_nfts + 1 }

/-- _crunch_nftport_stats (lines 291-298). -/
def _crunch_nftport_stats (response : NftportListResp) (stats : ContractStats) :
    ContractStats :=
  response.nfts.foldl nftportNftStep stats

/-- Loop body of _crunch_alechemy_stats for one nft: the cached-image counter
is only touched inside the metadata branch, and only when the first media
entry has a truthy gateway that contains res.cloudinary.com. -/
def alchemyNftStep (stats : ContractStats) (nft : AlchemyNft) : ContractStats :=
  let stats :=
    if nft.metadata then
      let stats := { stats with num_has_metadata := stats.num_has_metadata + 1 }
      match nft.media with
      | [] => stats
      | m :: _ =>
        if m.gateway == "" then stats
        else if containsCloudinary m.gateway then
          { stats with num_has_cached_image := stats.num_has_cached_image + 1 }
        else stats
    else stats
  { stats with num_nfts := stats.num_nfts + 1 }

/-- _crunch_alechemy_stats (lines 301-311; the source spells alchemy this way). -/
def _crunch_alechemy_stats (response : AlchemyListResp) (stats : ContractStats) :
    ContractStats :=
  response.nfts.foldl alchemyNftStep stats

/-- Loop body of _crunch_moralis_stats for one nft; Moralis has no cached files,
so num_has_cached_image is never touched. -/
def moralisNftStep (stats : ContractStats) (nft : MoralisNft) : ContractStats :=
  let stats :=
    if nft.metadata then
      { stats with num_has_metadata := stats.num_has_metadata + 1 }
    else stats
  { stats with num_nfts := stats.num_nfts + 1 }

/-- _crunch_moralis_stats (lines 314-320). -/
def _crunch_moralis_stats (response : MoralisListResp) (stats : ContractStats) :
    ContractStats :=
  response.result.foldl moralisNftStep stats

/-- Loop body of _crunch_quicknode_stats for one nft; QuickNode neither returns
raw metadata nor caches images, so num_has_cached_image is never touched. -/
def quicknodeNftStep (stats : ContractStats) (nft : QuicknodeNft) : ContractStats :=
  let stats :=
    if nft.imageUrl || nft.traits then
      { stats with num_has_metadata := stats.num_has_metadata + 1 }
    else stats
  { stats with num_nfts := stats.num_nfts + 1 }

/-- _crunch_quicknode_stats (lines 323-330). -/
def _crunch_quicknode_stats (response : QuicknodeListResp) (stats : ContractStats) :
    ContractStats :=
  response.tokens.foldl quicknodeNftStep stats

/-! ## Contract-stats pagination walks (lines 333-405)

Each source function is a try-wrapped while-True loop.  The loop is modelled
with explicit fuel; the Bool paired with the stats records whether the loop was
aborted by an exception (true) or exited normally (false), because an exception
also skips the floor-price lookup that follows the loop. -/

/-- Final statement stats.has_floor_price = True guarded by a truthy
floor-price response, as at lines 344-345, 363-364, 382-383. -/
def setHasFloorPrice (fp : Bool) (stats : ContractStats) : ContractStats :=
  if fp then { stats with has_floor_price := true } else stats

/-- The while-True loop of _get_nftport_contract_stats: crunch the page, stop
when the page's nfts list is falsy, otherwise advance page_number.  An
exception from the fetch ends the loop with the stats accumulated so far. -/
def nftportListLoop (pages : Nat → Except Unit NftportListResp) :
    Nat → Nat → ContractStats → Option (ContractStats × Bool)
  | 0, _, _ => none
  | fuel + 1, page_number, stats =>
    match pages page_number with
    | .error _ => some (stats, true)
    | .ok response =>
      let stats := _crunch_nftport_stats response stats
      if response.nfts.isEmpty then some (stats, false)
      else nftportListLoop pages fuel (page_number + 1) stats

/-- _get_nftport_contract_stats (lines 333-349): run the loop from page 1;
if it exited normally, look up the floor price (itself fallible). -/
def _get_nftport_contract_stats (pages : Nat → Except Unit NftportListResp)
    (floor : Except Unit Bool) (fuel : Nat) : Option ContractStats :=
  match nftportListLoop pages fuel 1 ContractStats0 with
  | none => none
  | some (stats, true) => some stats
  | some (stats, false) =>
    match floor with
    | .error _ => some stats
    | .ok fp => some (setHasFloorPrice fp stats)

/-- The while-True loop of _get_alchemy_contract_stats: the cursor returned as
nextToken is tested for falsiness after crunching. -/
def alchemyListLoop (pages : Nat → Except Unit AlchemyListResp) :
    Nat → Nat → ContractStats → Option (ContractStats × Bool)
  | 0, _, _ => none
  | fuel + 1, idx, stats =>
    match pages idx with
    | .error _ => some (stats, true)
    | .ok response =>
      let start_token := response.nextToken
      let stats := _crunch_alechemy_stats response stats
      if isFalsyCursor start_token then some (stats, false)
      else alchemyListLoop pages fuel (idx + 1) stats

/-- _get_alchemy_contract_stats (lines 352-368). -/
def _get_alchemy_contract_stats (pages : Nat → Except Unit AlchemyListResp)
    (floor : Except Unit Bool) (fuel : Nat) : Option ContractStats :=
  match alchemyListLoop pages fuel 0 ContractStats0 with
  | none => none
  | some (stats, true) => some stats
  | some (stats, false) =>
    match floor with
    | .error _ => some stats
    | .ok fp => some (setHasFloorPrice fp stats)

/-- The while-True loop of _get_moralis_contract_stats. -/
def moralisListLoop (pages : Nat → Except Unit MoralisListResp) :
    Nat → Nat → ContractStats → Option (ContractStats × Bool)
  | 0, _, _ => none
  | fuel + 1, idx, stats =>
    match pages idx with
    | .error _ => some (stats, true)
    | .ok response =>
      let cursor := response.cursor
      let stats := _crunch_moralis_stats response stats
      if isFalsyCursor cursor then some (stats, false)
      else moralisListLoop pages fuel (idx + 1) stats

/-- _get_moralis_contract_stats (lines 371-387). -/
def _get_moralis_contract_stats (pages : Nat → Except Unit MoralisListResp)
    (floor : Except Unit Bool) (fuel : Nat) : Option ContractStats :=
  match moralisListLoop pages fuel 0 ContractStats0 with
  | none => none
  | some (stats, true) => some stats
  | some (stats, false) =>
    match floor with
    | .error _ => some stats
    | .ok fp => some (setHasFloorPrice fp stats)

/-- The while-True loop of _get_quicknode_contract_stats: stop when
result.tokens is falsy. -/
def quicknodeListLoop (pages : Nat → Except Unit QuicknodeListResp) :
    Nat → Nat → ContractStats → Option (ContractStats × Bool)
  | 0, _, _ => none
  | fuel + 1, page_number, stats =>
    match pages page_number with
    | .error _ => some (stats, true)
    | .ok response =>
      let stats := _crunch_quicknode_stats response stats
      if response.tokens.isEmpty then some (stats, false)
      else quicknodeListLoop pages fuel (page_number + 1) stats

/-- _get_quicknode_contract_stats (lines 390-405); QuickNode has no floor
price, so nothing follows the loop. -/
def _get_quicknode_contract_stats (pages : Nat → Except Unit QuicknodeListResp)
    (fuel : Nat) : Option ContractStats :=
  match quicknodeListLoop pages fuel 1 ContractStats0 with
  | none => none
  | some (stats, _) => some stats

/-! ## Transaction-history walks (lines 408-517) -/

/-- An NFTPort transaction record.  The code reads transaction_date, type and
price_details; transfer_from and transfer_to model the party address fields
that are present on the provider record but never inspected by
_get_nftport_transaction_stats. -/
structure NftportTx where
  transaction_date : Int
  type : String
  price_details : Bool
  transfer_from : String := ""
  transfer_to : String := ""
deriving DecidableEq

/-- An NFTPort transaction-history response: "continuation" and "transactions". -/
structure NftportTxResp where
  continuation : Option String
  transactions : List NftportTx
deriving DecidableEq

/-- An Alchemy asset transfer: metadata.blockTimestamp (parsed), fromAddress,
toAddress, and the truthiness of value. -/
structure AlchemyTx where
  blockTimestamp : Int
  fromAddress : String
  toAddress : String
  value : Bool
deriving DecidableEq

/-- An Alchemy getAssetTransfers response: result.pageKey and result.transfers. -/
structure AlchemyTxResp where
  pageKey : Option String
  transfers : List AlchemyTx
deriving DecidableEq

/-- A Moralis transfer record: block_timestamp (parsed), from_address,
to_address and the integer value. -/
structure MoralisTx where
  block_timestamp : Int
  from_address : String
  to_address : String
  value : Int
deriving DecidableEq

/-- A Moralis transfers response: "cursor" and "result". -/
structure MoralisTxResp where
  cursor : Option String
  result : List MoralisTx
deriving DecidableEq

/-- Inner for-loop of _get_nftport_transaction_stats (lines 422-431): skip a
record newer than the start limit; stop (flag) at a record older than the
lookback limit; count a sale-typed record with price details.  Returns the
updated sales count and the flag. -/
def nftportTxGo (startL lookL : Int) : List NftportTx → Int → Int × Bool
  | [], sales => (sales, false)
  | t :: ts, sales =>
    if startL < t.transaction_date then nftportTxGo startL lookL ts sales
    else if t.transaction_date < lookL then (sales, true)
    else
      nftportTxGo startL lookL ts
        (if t.type == "sale" && t.price_details then sales + 1 else sales)

/-- Outer while-True loop of _get_nftport_transaction_stats: after the inner
loop, break when the continuation is falsy, then break when the flag is set. -/
def nftportTxLoop (pages : Nat → Except Unit NftportTxResp) (startL lookL : Int) :
    Nat → Nat → Int → Option Int
  | 0, _, _ => none
  | fuel + 1, idx, sales =>
    match pages idx with
    | .error _ => some sales
    | .ok response =>
      let continuation := response.continuation
      let p := nftportTxGo startL lookL response.transactions sales
      if isFalsyCursor continuation then some p.1
      else if p.2 then some p.1
      else nftportTxLoop pages startL lookL fuel (idx + 1) p.1

/-- _get_nftport_transaction_stats (lines 408-439). -/
def _get_nftport_transaction_stats (pages : Nat → Except Unit NftportTxResp)
    (transaction_start_limit transaction_lookback_limit : Int) (fuel : Nat) :
    Option Int :=
  nftportTxLoop pages transaction_start_limit transaction_lookback_limit fuel 0 0

/-- Inner for-loop of _get_alchemy_transaction_stats (lines 456-469): skip a
too-recent record; then skip a record whose fromAddress or toAddress is the
zero address (mint/burn); then stop (flag) at a record older than the lookback
limit; count a record with truthy value. -/
def alchemyTxGo (startL lookL : Int) : List AlchemyTx → Int → Int × Bool
  | [], sales => (sales, false)
  | t :: ts, sales =>
    if startL < t.blockTimestamp then alchemyTxGo startL lookL ts sales
    else if t.fromAddress == NULL_ADDRESS || t.toAddress == NULL_ADDRESS then
      alchemyTxGo startL lookL ts sales
    else if t.blockTimestamp < lookL then (sales, true)
    else alchemyTxGo startL lookL ts (if t.value then sales + 1 else sales)

/-- Outer while-True loop of _get_alchemy_transaction_stats. -/
def alchemyTxLoop (pages : Nat → Except Unit AlchemyTxResp) (startL lookL : Int) :
    Nat → Nat → Int → Option Int
  | 0, _, _ => none
  | fuel + 1, idx, sales =>
    match pages idx with
    | .error _ => some sales
    | .ok response =>
      let page_key := response.pageKey
      let p := alchemyTxGo startL lookL response.transfers sales
      if isFalsyCursor page_key then some p.1
      else if p.2 then some p.1
      else alchemyTxLoop pages startL lookL fuel (idx + 1) p.1

/-- _get_alchemy_transaction_stats (lines 442-477). -/
def _get_alchemy_transaction_stats (pages : Nat → Except Unit AlchemyTxResp)
    (transaction_start_limit transaction_lookback_limit : Int) (fuel : Nat) :
    Option Int :=
  alchemyTxLoop pages transaction_start_limit transaction_lookback_limit fuel 0 0

/-- Inner for-loop of _get_moralis_transaction_stats (lines 494-509): skip a
too-recent record; then skip a zero-address record (mint/burn); then stop
(flag) at a record older than the lookback limit; count a record with value
greater than zero. -/
def moralisTxGo (startL lookL : Int) : List MoralisTx → Int → Int × Bool
  | [], sales => (sales, false)
  | t :: ts, sales =>
    if startL < t.block_timestamp then moralisTxGo startL lookL ts sales
    else if t.from_address == NULL_ADDRESS || t.to_address == NULL_ADDRESS then
      moralisTxGo startL lookL ts sales
    else if t.block_timestamp < lookL then (sales, true)
    else moralisTxGo startL lookL ts (if 0 < t.value then sales + 1 else sales)

/-- Outer while-True loop of _get_moralis_transaction_stats. -/
def moralisTxLoop (pages : Nat → Except Unit MoralisTxResp) (startL lookL : Int) :
    Nat → Nat → Int → Option Int
  | 0, _, _ => none
  | fuel + 1, idx, sales =>
    match pages idx with
    | .error _ => some sales
    | .ok response =>
      let cursor := response.cursor
      let p := moralisTxGo startL lookL response.result sales
      if isFalsyCursor cursor then some p.1
      else if p.2 then some p.1
      else moralisTxLoop pages startL lookL fuel (idx + 1) p.1

/-- _get_moralis_transaction_stats (lines 480-517). -/
def _get_moralis_transaction_stats (pages : Nat → Except Unit MoralisTxResp)
    (transaction_start_limit transaction_lookback_limit : Int) (fuel : Nat) :
    Option Int :=
  moralisTxLoop pages transaction_start_limit transaction_lookback_limit fuel 0 0

/-! ## _calculate_global_stats (lines 610-626)

The Python dataclass GlobalCompareContractStats gives its four provider fields
the default value GlobalContractsStats(), evaluated once when the class is
defined.  Every GlobalCompareContractStats() constructed without explicit
provider arguments therefore receives those same four objects, and the
in-place += updates of _calculate_global_stats mutate them.  GlobalDefaults is
that piece of interpreter state; _calculate_global_stats_stateful threads it
explicitly, and _calculate_global_stats is the first call made against fresh
(all-zero) defaults, as happens in a fresh interpreter. -/

/-- The four class-level default GlobalContractsStats() objects. -/
structure GlobalDefaults where
  nftport : GlobalContractsStats
  alchemy : GlobalContractsStats
  moralis : GlobalContractsStats
  quicknode : GlobalContractsStats
deriving DecidableEq

/-- The default objects as first evaluated at class-definition time. -/
def initGlobalDefaults : GlobalDefaults := ⟨{}, {}, {}, {}⟩

/-- The += block for one provider in the loop body of _calculate_global_stats
(lines 620-625); int(has_floor_price) is 1 or 0. -/
def globalStatsAdd (g : GlobalContractsStats) (c : ContractStats) :
    GlobalContractsStats :=
  { total_num_nfts := g.total_num_nfts + c.num_nfts
    total_num_has_metadata := g.total_num_has_metadata + c.num_has_metadata
    total_num_has_cached_image := g.total_num_has_cached_image + c.num_has_cached_image
    total_num_sale_transactions := g.total_num_sale_transactions + c.num_sale_transactions
    total_collections_floor_price_found :=
      g.total_collections_floor_price_found + (if c.has_floor_price then 1 else 0) }

/-- Body of the for-loop of _calculate_global_stats for one contract_stat,
with the inner for-provider loop unrolled over PROVIDERS; token_supply or 0
is the Python null-coalescing at line 616. -/
def globalStep (g : GlobalCompareContractStats) (c : CompareContractStats) :
    GlobalCompareContractStats :=
  { total_num_collections := g.total_num_collections + 1
    total_token_supply := g.total_token_supply + c.token_supply.getD 0
    nftport := globalStatsAdd g.nftport c.nftport
    alchemy := globalStatsAdd g.alchemy c.alchemy
    moralis := globalStatsAdd g.moralis c.moralis
    quicknode := globalStatsAdd g.quicknode c.quicknode }

/-- One invocation of _calculate_global_stats against a given state of the
shared class-level default objects: GlobalCompareContractStats() picks the
shared objects up, the fold mutates them, and the mutations persist in the
returned state. -/
def _calculate_global_stats_stateful (d : GlobalDefaults)
    (contract_stats : List CompareContractStats) :
    GlobalCompareContractStats × GlobalDefaults :=
  let global_stats : GlobalCompareContractStats :=
    { total_num_collections := 0, total_token_supply := 0,
      nftport := d.nftport, alchemy := d.alchemy,
      moralis := d.moralis, quicknode := d.quicknode }
  let global_stats := contract_stats.foldl globalStep global_stats
  (global_stats,
    ⟨global_stats.nftport, global_stats.alchemy,
     global_stats.moralis, global_stats.quicknode⟩)

/-- _calculate_global_stats (lines 610-626) as invoked for the first time in a
fresh interpreter, i.e. against pristine all-zero default objects. -/
def _calculate_global_stats (contract_stats : List CompareContractStats) :
    GlobalCompareContractStats :=
  (_calculate_global_stats_stateful initGlobalDefaults contract_stats).1

/-! ## Per-address processing in _run_thread (lines 629-682)

The body of the per-row loop: fetch token supply, then the four providers'
contract stats one after another (each with its own internal try/except), then
optionally the three transaction counts.  Each provider's inputs are its own
page stream and floor-price response; a none result from any walk means the
corresponding unbounded loop did not finish within the fuel. -/

/-- The per-address inputs: one page stream (and floor-price outcome) per
provider endpoint used by _run_thread. -/
structure AddressInputs where
  token_supply : Option Int
  nftportPages : Nat → Except Unit NftportListResp
  nftportFloor : Except Unit Bool
  alchemyPages : Nat → Except Unit AlchemyListResp
  alchemyFloor : Except Unit Bool
  moralisPages : Nat → Except Unit MoralisListResp
  moralisFloor : Except Unit Bool
  quicknodePages : Nat → Except Unit QuicknodeListResp
  nftportTxPages : Nat → Except Unit NftportTxResp
  alchemyTxPages : Nat → Except Unit AlchemyTxResp
  moralisTxPages : Nat → Except Unit MoralisTxResp

/-- The per-row body of _run_thread (lines 636-675): builds the
CompareContractStats record for one address. -/
def processAddress (address : String) (slug : Option String)
    (inp : AddressInputs) (is_get_transactions : Bool)
    (startL lookL : Int) (fuel : Nat) : Option CompareContractStats := do
  let nftport_stats ← _get_nftport_contract_stats inp.nftportPages inp.nftportFloor fuel
  let alchemy_stats ← _get_alchemy_contract_stats inp.alchemyPages inp.alchemyFloor fuel
  let moralis_stats ← _get_moralis_contract_stats inp.moralisPages inp.moralisFloor fuel
  let quicknode_stats ← _get_quicknode_contract_stats inp.quicknodePages fuel
  if is_get_transactions then
    let nftport_sales ← _get_nftport_transaction_stats inp.nftportTxPages startL lookL fuel
    let alchemy_sales ← _get_alchemy_transaction_stats inp.alchemyTxPages startL lookL fuel
    let moralis_sales ← _get_moralis_transaction_stats inp.moralisTxPages startL lookL fuel
    some { address := address, slug := slug, token_supply := inp.token_supply
           nftport := { nftport_stats with num_sale_transactions := nftport_sales }
           alchemy := { alchemy_stats with num_sale_transactions := alchemy_sales }
           moralis := { moralis_stats with num_sale_transactions := moralis_sales }
           quicknode := quicknode_stats }
  else
    some { address := address, slug := slug, token_supply := inp.token_supply
           nftport := nftport_stats, alchemy := alchemy_stats
           moralis := moralis_stats, quicknode := quicknode_stats }

/-! ## _get_patches (lines 685-686) -/

/-- Every step-th element of the list starting once skip reaches 0: the
recursion scheme of Python slicing l[start::step] for step >= 1.
takeEveryAux step l k returns the elements at indices k, k+step, k+2*step, ... -/
def takeEveryAux (step : Nat) : List α → Nat → List α
  | [], _ => []
  | x :: xs, 0 => x :: takeEveryAux step xs (step - 1)
  | _ :: xs, k + 1 => takeEveryAux step xs k

/-- Python slice l[start::step] for step >= 1 (df.iloc[i::PROCESS_COUNT] on the
row list). -/
def pySlice (l : List α) (start step : Nat) : List α :=
  takeEveryAux step l start

/-- _get_patches generalized over the shard count:
[df.iloc[i::n] for i in range(n)]. -/
def getPatchesN (l : List α) (n : Nat) : List (List α) :=
  (List.range n).map (fun i => pySlice l i n)

/-- _get_patches (lines 685-686): shard count fixed to PROCESS_COUNT. -/
def _get_patches (l : List α) : List (List α) :=
  getPatchesN l PROCESS_COUNT

/-! ## Ordering and invariants on ContractStats -/

/-- Componentwise order on ContractStats: every counter at most the other's,
and has_floor_price at most the other's in the Bool order false < true. -/
def statsLe (s t : ContractStats) : Prop :=
  s.num_nfts ≤ t.num_nfts ∧
  s.num_has_metadata ≤ t.num_has_metadata ∧
  s.num_has_cached_image ≤ t.num_has_cached_image ∧
  s.num_sale_transactions ≤ t.num_sale_transactions ∧
  s.has_floor_price ≤ t.has_floor_price

/-- The inequalities the NFTPort accumulator actually preserves: both counted
subsets stay within num_nfts, but metadata and cached image are independent. -/
def nftportChain (s : ContractStats) : Prop :=
  0 ≤ s.num_has_metadata ∧ 0 ≤ s.num_has_cached_image ∧
  s.num_has_metadata ≤ s.num_nfts ∧ s.num_has_cached_image ≤ s.num_nfts

/-- The full chain the Alchemy accumulator preserves: a cached image is only
counted for an NFT whose metadata was counted. -/
def alchemyChain (s : ContractStats) : Prop :=
  0 ≤ s.num_has_cached_image ∧ s.num_has_cached_image ≤ s.num_has_metadata ∧
  s.num_has_metadata ≤ s.num_nfts

/-! ## Observers for the time-window behaviour of the transaction loops -/

/-- A record that makes the NFTPort inner loop set the early-stop flag: not
skipped as too recent, and older than the lookback limit. -/
def nftportTxStopsAt (startL lookL : Int) (t : NftportTx) : Bool :=
  !decide (startL < t.transaction_date) && decide (t.transaction_date < lookL)

/-- A record the NFTPort inner loop counts: inside the closed window
[lookL, startL], of type "sale", and carrying price details. -/
def nftportTxCountsAt (startL lookL : Int) (t : NftportTx) : Bool :=
  !decide (startL < t.transaction_date) && !decide (t.transaction_date < lookL) &&
    (t.type == "sale" && t.price_details)

/-- A record the Moralis inner loop skips before the lookback check: too
recent, or a zero-address (mint/burn) record. -/
def moralisTxSkipsAt (startL : Int) (t : MoralisTx) : Bool :=
  decide (startL < t.block_timestamp) ||
    (t.from_address == NULL_ADDRESS || t.to_address == NULL_ADDRESS)

/-- A record that makes the Moralis inner loop set the early-stop flag: not
skipped, and older than the lookback limit. -/
def moralisTxStopsAt (startL lookL : Int) (t : MoralisTx) : Bool :=
  !moralisTxSkipsAt startL t && decide (t.block_timestamp < lookL)

/-- A record the Moralis inner loop counts: not skipped, inside the window,
with value greater than zero. -/
def moralisTxCountsAt (startL lookL : Int) (t : MoralisTx) : Bool :=
  !moralisTxSkipsAt startL t && !decide (t.block_timestamp < lookL) &&
    decide (0 < t.value)

/-- A concrete record for the C4 witness. -/
def permDemoRecordA : CompareContractStats :=
  { address := "0xa", slug := some "apes", token_supply := some 7,
    nftport := { num_nfts := 3, num_has_metadata := 2, num_has_cached_image := 1,
                 num_sale_transactions := 4, has_floor_price := true } }

/-- A second concrete record for the C4 witness. -/
def permDemoRecordB : CompareContractStats :=
  { address := "0xb", moralis := { num_nfts := 5 } }

/-- A record whose nftport counter makes the default-sharing bug observable. -/
def aliasDemoRecord : CompareContractStats :=
  { address := "0xa", nftport := { num_nfts := 1 } }

/-! ## Concrete values used by witnesses and counterexamples -/

/-- Left fold of _crunch_nftport_stats over the cnt pages starting at page
number start. -/
def crunchRange (pages : Nat → NftportListResp) : Nat → Nat → ContractStats → ContractStats
  | _, 0, s => s
  | start, cnt + 1, s =>
    crunchRange pages (start + 1) cnt (_crunch_nftport_stats (pages start) s)

/-- Concrete inputs for the C7 witness: the NFTPort fetch raises immediately,
every other provider returns one terminal page. -/
def demoAddressInputs : AddressInputs :=
  { token_supply := some 9
    nftportPages := fun _ => .error ()
    nftportFloor := .ok false
    alchemyPages := fun _ => .ok ⟨[], none⟩
    alchemyFloor := .ok true
    moralisPages := fun _ => .ok ⟨[], none⟩
    moralisFloor := .ok false
    quicknodePages := fun _ => .ok ⟨[]⟩
    nftportTxPages := fun _ => .error ()
    alchemyTxPages := fun _ => .error ()
    moralisTxPages := fun _ => .error () }

/-- The record processAddress builds from demoAddressInputs. -/
def demoRecord7 : CompareContractStats :=
  { address := "0xa", slug := none, token_supply := some 9,
    nftport := ContractStats0,
    alchemy := { has_floor_price := true },
    moralis := ContractStats0, quicknode := ContractStats0 }

attribute [ext] ContractStats GlobalContractsStats GlobalCompareContractStats

/-! ## Theorems -/

theorem statsLe_refl (s : ContractStats) : statsLe s s :=
  ⟨le_refl _, le_refl _, le_refl _, le_refl _, le_refl _⟩

theorem statsLe_trans {s t u : ContractStats} (h1 : statsLe s t) (h2 : statsLe t u) :
    statsLe s u :=
  ⟨le_trans h1.1 h2.1, le_trans h1.2.1 h2.2.1, le_trans h1.2.2.1 h2.2.2.1,
   le_trans h1.2.2.2.1 h2.2.2.2.1, le_trans h1.2.2.2.2 h2.2.2.2.2⟩

theorem foldl_statsLe {β : Type} (f : ContractStats → β → ContractStats)
    (hf : ∀ s b, statsLe s (f s b)) :
    ∀ (l : List β) (s : ContractStats), statsLe s (l.foldl f s) := by
  intro l
  induction l with
  | nil => intro s; exact statsLe_refl s
  | cons b l ih => intro s; exact statsLe_trans (hf s b) (ih (f s b))

theorem foldl_inv {β : Type} (P : ContractStats → Prop)
    (f : ContractStats → β → ContractStats) (hf : ∀ s b, P s → P (f s b)) :
    ∀ (l : List β) (s : ContractStats), P s → P (l.foldl f s) := by
  intro l
  induction l with
  | nil => intro s hs; exact hs
  | cons b l ih => intro s hs; exact ih (f s b) (hf s b hs)

theorem nftportNftStep_mono (s : ContractStats) (n : NftportNft) :
    statsLe s (nftportNftStep s n) := by
  unfold nftportNftStep statsLe
  split_ifs <;> simp <;> omega

theorem alchemyNftStep_mono (s : ContractStats) (n : AlchemyNft) :
    statsLe s (alchemyNftStep s n) := by
  obtain ⟨md, media⟩ := n
  unfold alchemyNftStep statsLe
  cases md <;> rcases media with _ | ⟨m, rest⟩ <;> dsimp only <;>
    split_ifs <;> simp <;> omega

theorem moralisNftStep_mono (s : ContractStats) (n : MoralisNft) :
    statsLe s (moralisNftStep s n) := by
  unfold moralisNftStep statsLe
  split_ifs <;> simp <;> omega

theorem quicknodeNftStep_mono (s : ContractStats) (n : QuicknodeNft) :
    statsLe s (quicknodeNftStep s n) := by
  unfold quicknodeNftStep statsLe
  split_ifs <;> simp <;> omega

theorem nftportNftStep_floor (s : ContractStats) (n : NftportNft) :
    (nftportNftStep s n).has_floor_price = s.has_floor_price := by
  unfold nftportNftStep; split_ifs <;> rfl

theorem alchemyNftStep_floor (s : ContractStats) (n : AlchemyNft) :
    (alchemyNftStep s n).has_floor_price = s.has_floor_price := by
  obtain ⟨md, media⟩ := n
  unfold alchemyNftStep
  cases md <;> rcases media with _ | ⟨m, rest⟩ <;> dsimp only <;>
    split_ifs <;> rfl

theorem moralisNftStep_floor (s : ContractStats) (n : MoralisNft) :
    (moralisNftStep s n).has_floor_price = s.has_floor_price := by
  unfold moralisNftStep; split_ifs <;> rfl

theorem quicknodeNftStep_floor (s : ContractStats) (n : QuicknodeNft) :
    (quicknodeNftStep s n).has_floor_price = s.has_floor_price := by
  unfold quicknodeNftStep; split_ifs <;> rfl

theorem foldl_floor_eq {β : Type} (f : ContractStats → β → ContractStats)
    (hf : ∀ s b, (f s b).has_floor_price = s.has_floor_price) :
    ∀ (l : List β) (s : ContractStats), (l.foldl f s).has_floor_price = s.has_floor_price := by
  intro l
  induction l with
  | nil => intro s; rfl
  | cons b l ih => intro s; rw [List.foldl_cons, ih, hf]

theorem crunch_nftport_mono (r : NftportListResp) (s : ContractStats) :
    statsLe s (_crunch_nftport_stats r s) :=
  foldl_statsLe nftportNftStep nftportNftStep_mono r.nfts s

theorem crunch_alchemy_mono (r : AlchemyListResp) (s : ContractStats) :
    statsLe s (_crunch_alechemy_stats r s) :=
  foldl_statsLe alchemyNftStep alchemyNftStep_mono r.nfts s

theorem crunch_moralis_mono (r : MoralisListResp) (s : ContractStats) :
    statsLe s (_crunch_moralis_stats r s) :=
  foldl_statsLe moralisNftStep moralisNftStep_mono r.result s

theorem crunch_quicknode_mono (r : QuicknodeListResp) (s : ContractStats) :
    statsLe s (_crunch_quicknode_stats r s) :=
  foldl_statsLe quicknodeNftStep quicknodeNftStep_mono r.tokens s

theorem nftportNftStep_chain (s : ContractStats) (n : NftportNft)
    (hs : nftportChain s) : nftportChain (nftportNftStep s n) := by
  obtain ⟨h1, h2, h3, h4⟩ := hs
  unfold nftportNftStep nftportChain
  split_ifs <;> dsimp only <;> omega

theorem alchemyNftStep_chain (s : ContractStats) (n : AlchemyNft)
    (hs : alchemyChain s) : alchemyChain (alchemyNftStep s n) := by
  obtain ⟨h1, h2, h3⟩ := hs
  obtain ⟨md, media⟩ := n
  unfold alchemyNftStep alchemyChain
  cases md <;> rcases media with _ | ⟨m, rest⟩ <;> dsimp only <;>
    split_ifs <;> (try dsimp only) <;> omega

theorem moralisNftStep_cached (s : ContractStats) (n : MoralisNft) :
    (moralisNftStep s n).num_has_cached_image = s.num_has_cached_image := by
  unfold moralisNftStep; split_ifs <;> rfl

theorem quicknodeNftStep_cached (s : ContractStats) (n : QuicknodeNft) :
    (quicknodeNftStep s n).num_has_cached_image = s.num_has_cached_image := by
  unfold quicknodeNftStep; split_ifs <;> rfl

theorem foldl_cached_eq {β : Type} (f : ContractStats → β → ContractStats)
    (hf : ∀ s b, (f s b).num_has_cached_image = s.num_has_cached_image) :
    ∀ (l : List β) (s : ContractStats),
      (l.foldl f s).num_has_cached_image = s.num_has_cached_image := by
  intro l
  induction l with
  | nil => intro s; rfl
  | cons b l ih => intro s; rw [List.foldl_cons, ih, hf]

/-- C3, corrected on the code: for NFTPort an NFT carrying a cached_file_url
but no metadata increments num_has_cached_image without incrementing
num_has_metadata, so the middle inequality of the claimed chain fails on
the very first page. -/
theorem C3_counterexample :
    (_crunch_nftport_stats ⟨[⟨false, true⟩]⟩ ContractStats0).num_has_metadata
      < (_crunch_nftport_stats ⟨[⟨false, true⟩]⟩ ContractStats0).num_has_cached_image := by
  decide

/-- C3 (amended): over every sequence of response pages accumulated from the
zero ContractStats, the Alchemy accumulator satisfies the full chain
num_nfts >= num_has_metadata >= num_has_cached_image >= 0; the NFTPort
accumulator guarantees only num_nfts >= num_has_metadata >= 0 and
num_nfts >= num_has_cached_image >= 0 (metadata and cached image are counted
independently); and the Moralis and QuickNode accumulators never touch
num_has_cached_image, which therefore stays 0. -/
theorem C3_amended :
    (∀ pages : List AlchemyListResp,
      0 ≤ (pages.foldl (fun s r => _crunch_alechemy_stats r s) ContractStats0).num_has_cached_image ∧
      (pages.foldl (fun s r => _crunch_alechemy_stats r s) ContractStats0).num_has_cached_image
        ≤ (pages.foldl (fun s r => _crunch_alechemy_stats r s) ContractStats0).num_has_metadata ∧
      (pages.foldl (fun s r => _crunch_alechemy_stats r s) ContractStats0).num_has_metadata
        ≤ (pages.foldl (fun s r => _crunch_alechemy_stats r s) ContractStats0).num_nfts) ∧
    (∀ pages : List NftportListResp,
      0 ≤ (pages.foldl (fun s r => _crunch_nftport_stats r s) ContractStats0).num_has_metadata ∧
      0 ≤ (pages.foldl (fun s r => _crunch_nftport_stats r s) ContractStats0).num_has_cached_image ∧
      (pages.foldl (fun s r => _crunch_nftport_stats r s) ContractStats0).num_has_metadata
        ≤ (pages.foldl (fun s r => _crunch_nftport_stats r s) ContractStats0).num_nfts ∧
      (pages.foldl (fun s r => _crunch_nftport_stats r s) ContractStats0).num_has_cached_image
        ≤ (pages.foldl (fun s r => _crunch_nftport_stats r s) ContractStats0).num_nfts) ∧
    (∀ pages : List MoralisListResp,
      (pages.foldl (fun s r => _crunch_moralis_stats r s) ContractStats0).num_has_cached_image = 0) ∧
    (∀ pages : List QuicknodeListResp,
      (pages.foldl (fun s r => _crunch_quicknode_stats r s) ContractStats0).num_has_cached_image = 0) := by
  refine ⟨?_, ?_, ?_, ?_⟩
  · intro pages
    have h : alchemyChain (pages.foldl (fun s r => _crunch_alechemy_stats r s) ContractStats0) := by
      refine foldl_inv alchemyChain _ ?_ pages ContractStats0 ⟨le_refl 0, le_refl 0, le_refl 0⟩
      intro s r hs
      exact foldl_inv alchemyChain alchemyNftStep alchemyNftStep_chain r.nfts s hs
    exact h
  · intro pages
    have h : nftportChain (pages.foldl (fun s r => _crunch_nftport_stats r s) ContractStats0) := by
      refine foldl_inv nftportChain _ ?_ pages ContractStats0 ⟨le_refl 0, le_refl 0, le_refl 0, le_refl 0⟩
      intro s r hs
      exact foldl_inv nftportChain nftportNftStep nftportNftStep_chain r.nfts s hs
    exact h
  · intro pages
    have h := foldl_cached_eq (fun s r => _crunch_moralis_stats r s)
      (fun s r => foldl_cached_eq moralisNftStep moralisNftStep_cached r.result s)
      pages ContractStats0
    simpa using h
  · intro pages
    have h := foldl_cached_eq (fun s r => _crunch_quicknode_stats r s)
      (fun s r => foldl_cached_eq quicknodeNftStep quicknodeNftStep_cached r.tokens s)
      pages ContractStats0
    simpa using h

/-- C8: every per-page accumulation step is monotone in every counter (so
counters never decrease from one page to the next), none of the accumulators
touches has_floor_price, accumulating any page sequence from the zero stats
keeps every counter at least 0, and the end-of-walk floor-price update only
ever raises has_floor_price (false to true at most once, never back). -/
theorem C8_thm :
    (∀ r s, statsLe s (_crunch_nftport_stats r s)) ∧
    (∀ r s, statsLe s (_crunch_alechemy_stats r s)) ∧
    (∀ r s, statsLe s (_crunch_moralis_stats r s)) ∧
    (∀ r s, statsLe s (_crunch_quicknode_stats r s)) ∧
    (∀ r s, (_crunch_nftport_stats r s).has_floor_price = s.has_floor_price) ∧
    (∀ r s, (_crunch_alechemy_stats r s).has_floor_price = s.has_floor_price) ∧
    (∀ r s, (_crunch_moralis_stats r s).has_floor_price = s.has_floor_price) ∧
    (∀ r s, (_crunch_quicknode_stats r s).has_floor_price = s.has_floor_price) ∧
    (∀ fp s, statsLe s (setHasFloorPrice fp s)) ∧
    (∀ fp s, (setHasFloorPrice fp s).has_floor_price = (s.has_floor_price || fp)) ∧
    (∀ pages : List NftportListResp,
      statsLe ContractStats0 (pages.foldl (fun s r => _crunch_nftport_stats r s) ContractStats0)) ∧
    (∀ pages : List AlchemyListResp,
      statsLe ContractStats0 (pages.foldl (fun s r => _crunch_alechemy_stats r s) ContractStats0)) ∧
    (∀ pages : List MoralisListResp,
      statsLe ContractStats0 (pages.foldl (fun s r => _crunch_moralis_stats r s) ContractStats0)) ∧
    (∀ pages : List QuicknodeListResp,
      statsLe ContractStats0 (pages.foldl (fun s r => _crunch_quicknode_stats r s) ContractStats0)) := by
  refine ⟨crunch_nftport_mono, crunch_alchemy_mono, crunch_moralis_mono, crunch_quicknode_mono,
    ?_, ?_, ?_, ?_, ?_, ?_, ?_, ?_, ?_, ?_⟩
  · intro r s; exact foldl_floor_eq nftportNftStep nftportNftStep_floor r.nfts s
  · intro r s; exact foldl_floor_eq alchemyNftStep alchemyNftStep_floor r.nfts s
  · intro r s; exact foldl_floor_eq moralisNftStep moralisNftStep_floor r.result s
  · intro r s; exact foldl_floor_eq quicknodeNftStep quicknodeNftStep_floor r.tokens s
  · intro fp s
    unfold setHasFloorPrice
    split_ifs with h <;> refine ⟨le_refl _, le_refl _, le_refl _, le_refl _, ?_⟩
    · exact Bool.le_true _
    · exact le_refl _
  · intro fp s
    unfold setHasFloorPrice
    split_ifs with h <;> simp [h]
  · exact fun pages => foldl_statsLe _ (fun s r => crunch_nftport_mono r s) pages ContractStats0
  · exact fun pages => foldl_statsLe _ (fun s r => crunch_alchemy_mono r s) pages ContractStats0
  · exact fun pages => foldl_statsLe _ (fun s r => crunch_moralis_mono r s) pages ContractStats0
  · exact fun pages => foldl_statsLe _ (fun s r => crunch_quicknode_mono r s) pages ContractStats0

theorem alchemyTxGo_insert (startL lookL : Int) (t : AlchemyTx)
    (hz : t.fromAddress = NULL_ADDRESS ∨ t.toAddress = NULL_ADDRESS) :
    ∀ (l1 l2 : List AlchemyTx) (sales : Int),
      alchemyTxGo startL lookL (l1 ++ t :: l2) sales
        = alchemyTxGo startL lookL (l1 ++ l2) sales := by
  have hz' : (t.fromAddress == NULL_ADDRESS || t.toAddress == NULL_ADDRESS) = true := by
    rcases hz with h | h <;> simp [h]
  intro l1
  induction l1 with
  | nil =>
    intro l2 sales
    by_cases h1 : startL < t.blockTimestamp
    · simp [alchemyTxGo, h1]
    · simp [alchemyTxGo, h1, hz']
  | cons u l1 ih =>
    intro l2 sales
    by_cases h1 : startL < u.blockTimestamp
    · simp [alchemyTxGo, h1, ih]
    · by_cases h2 : (u.fromAddress == NULL_ADDRESS || u.toAddress == NULL_ADDRESS) = true
      · simp [alchemyTxGo, h1, h2, ih]
      · by_cases h3 : u.blockTimestamp < lookL
        · simp [alchemyTxGo, h1, h2, h3]
        · simp [alchemyTxGo, h1, h2, h3, ih]

theorem moralisTxGo_insert (startL lookL : Int) (t : MoralisTx)
    (hz : t.from_address = NULL_ADDRESS ∨ t.to_address = NULL_ADDRESS) :
    ∀ (l1 l2 : List MoralisTx) (sales : Int),
      moralisTxGo startL lookL (l1 ++ t :: l2) sales
        = moralisTxGo startL lookL (l1 ++ l2) sales := by
  have hz' : (t.from_address == NULL_ADDRESS || t.to_address == NULL_ADDRESS) = true := by
    rcases hz with h | h <;> simp [h]
  intro l1
  induction l1 with
  | nil =>
    intro l2 sales
    by_cases h1 : startL < t.block_timestamp
    · simp [moralisTxGo, h1]
    · simp [moralisTxGo, h1, hz']
  | cons u l1 ih =>
    intro l2 sales
    by_cases h1 : startL < u.block_timestamp
    · simp [moralisTxGo, h1, ih]
    · by_cases h2 : (u.from_address == NULL_ADDRESS || u.to_address == NULL_ADDRESS) = true
      · simp [moralisTxGo, h1, h2, ih]
      · by_cases h3 : u.block_timestamp < lookL
        · simp [moralisTxGo, h1, h2, h3]
        · simp [moralisTxGo, h1, h2, h3, ih]

/-- C2, corrected on the code: _get_nftport_transaction_stats applies no
zero-address exclusion, so an in-window sale-typed record with price details
whose transfer_from is the zero address is counted (result 1, where the claim
demands 0). -/
theorem C2_counterexample :
    (NftportTx.transfer_from ⟨5, "sale", true, NULL_ADDRESS, "0xb"⟩ = NULL_ADDRESS) ∧
    _get_nftport_transaction_stats
      (fun _ => .ok ⟨none, [⟨5, "sale", true, NULL_ADDRESS, "0xb"⟩]⟩) 10 0 3 = some 1 := by
  constructor
  · rfl
  · decide

/-- C2 (amended): in the Alchemy and Moralis transaction loops a record whose
from-address or to-address is the zero address is never counted toward the
sales total, wherever it occurs in the page and whatever its timestamp:
deleting it from the record list leaves the accumulated count unchanged.
NFTPort applies no such exclusion (see the counterexample). -/
theorem C2_amended :
    (∀ (startL lookL d : Int) (a : String) (v : Bool) (l1 l2 : List AlchemyTx) (sales : Int),
      (alchemyTxGo startL lookL (l1 ++ (⟨d, NULL_ADDRESS, a, v⟩ : AlchemyTx) :: l2) sales).1
        = (alchemyTxGo startL lookL (l1 ++ l2) sales).1) ∧
    (∀ (startL lookL d : Int) (a : String) (v : Bool) (l1 l2 : List AlchemyTx) (sales : Int),
      (alchemyTxGo startL lookL (l1 ++ (⟨d, a, NULL_ADDRESS, v⟩ : AlchemyTx) :: l2) sales).1
        = (alchemyTxGo startL lookL (l1 ++ l2) sales).1) ∧
    (∀ (startL lookL d v : Int) (a : String) (l1 l2 : List MoralisTx) (sales : Int),
      (moralisTxGo startL lookL (l1 ++ (⟨d, NULL_ADDRESS, a, v⟩ : MoralisTx) :: l2) sales).1
        = (moralisTxGo startL lookL (l1 ++ l2) sales).1) ∧
    (∀ (startL lookL d v : Int) (a : String) (l1 l2 : List MoralisTx) (sales : Int),
      (moralisTxGo startL lookL (l1 ++ (⟨d, a, NULL_ADDRESS, v⟩ : MoralisTx) :: l2) sales).1
        = (moralisTxGo startL lookL (l1 ++ l2) sales).1) := by
  refine ⟨?_, ?_, ?_, ?_⟩
  · intro startL lookL d a v l1 l2 sales
    rw [alchemyTxGo_insert startL lookL _ (Or.inl rfl) l1 l2 sales]
  · intro startL lookL d a v l1 l2 sales
    rw [alchemyTxGo_insert startL lookL _ (Or.inr rfl) l1 l2 sales]
  · intro startL lookL d v a l1 l2 sales
    rw [moralisTxGo_insert startL lookL _ (Or.inl rfl) l1 l2 sales]
  · intro startL lookL d v a l1 l2 sales
    rw [moralisTxGo_insert startL lookL _ (Or.inr rfl) l1 l2 sales]

theorem alchemyTxLoop_insert (pages : Nat → Except Unit AlchemyTxResp) (k : Nat)
    (pk : Option String) (l1 l2 : List AlchemyTx) (t : AlchemyTx)
    (hz : t.fromAddress = NULL_ADDRESS ∨ t.toAddress = NULL_ADDRESS) (startL lookL : Int) :
    ∀ (fuel idx : Nat) (sales : Int),
      alchemyTxLoop (fun i => if i = k then .ok ⟨pk, l1 ++ t :: l2⟩ else pages i)
          startL lookL fuel idx sales
        = alchemyTxLoop (fun i => if i = k then .ok ⟨pk, l1 ++ l2⟩ else pages i)
          startL lookL fuel idx sales := by
  intro fuel
  induction fuel with
  | zero => intro idx sales; rfl
  | succ fuel ih =>
    intro idx sales
    by_cases hik : idx = k
    · simp only [alchemyTxLoop, hik, if_pos]
      rw [alchemyTxGo_insert startL lookL t hz l1 l2 sales]
      split_ifs <;> first | rfl | exact ih (k + 1) _
    · simp only [alchemyTxLoop, if_neg hik]
      cases hp : pages idx with
      | error e => rfl
      | ok r =>
        dsimp only
        split_ifs <;> first | rfl | exact ih (idx + 1) _

theorem moralisTxLoop_insert (pages : Nat → Except Unit MoralisTxResp) (k : Nat)
    (cu : Option String) (l1 l2 : List MoralisTx) (t : MoralisTx)
    (hz : t.from_address = NULL_ADDRESS ∨ t.to_address = NULL_ADDRESS) (startL lookL : Int) :
    ∀ (fuel idx : Nat) (sales : Int),
      moralisTxLoop (fun i => if i = k then .ok ⟨cu, l1 ++ t :: l2⟩ else pages i)
          startL lookL fuel idx sales
        = moralisTxLoop (fun i => if i = k then .ok ⟨cu, l1 ++ l2⟩ else pages i)
          startL lookL fuel idx sales := by
  intro fuel
  induction fuel with
  | zero => intro idx sales; rfl
  | succ fuel ih =>
    intro idx sales
    by_cases hik : idx = k
    · simp only [moralisTxLoop, hik, if_pos]
      rw [moralisTxGo_insert startL lookL t hz l1 l2 sales]
      split_ifs <;> first | rfl | exact ih (k + 1) _
    · simp only [moralisTxLoop, if_neg hik]
      cases hp : pages idx with
      | error e => rfl
      | ok r =>
        dsimp only
        split_ifs <;> first | rfl | exact ih (idx + 1) _

/-- C10: in the Alchemy and Moralis transaction walks the zero-address check
runs before the lookback check, so a zero-address record never triggers the
early-termination flag: inserting such a record anywhere in any page changes
nothing about the whole walk, which continues to the later records of that
page and to all subsequent pages exactly as without it. -/
theorem C10_thm :
    (∀ (pages : Nat → Except Unit AlchemyTxResp) (k : Nat) (pk : Option String)
       (l1 l2 : List AlchemyTx) (d : Int) (a : String) (v : Bool)
       (startL lookL : Int) (fuel : Nat),
      _get_alchemy_transaction_stats
          (fun i => if i = k then .ok ⟨pk, l1 ++ (⟨d, NULL_ADDRESS, a, v⟩ : AlchemyTx) :: l2⟩
                    else pages i) startL lookL fuel
        = _get_alchemy_transaction_stats
            (fun i => if i = k then .ok ⟨pk, l1 ++ l2⟩ else pages i) startL lookL fuel) ∧
    (∀ (pages : Nat → Except Unit AlchemyTxResp) (k : Nat) (pk : Option String)
       (l1 l2 : List AlchemyTx) (d : Int) (a : String) (v : Bool)
       (startL lookL : Int) (fuel : Nat),
      _get_alchemy_transaction_stats
          (fun i => if i = k then .ok ⟨pk, l1 ++ (⟨d, a, NULL_ADDRESS, v⟩ : AlchemyTx) :: l2⟩
                    else pages i) startL lookL fuel
        = _get_alchemy_transaction_stats
            (fun i => if i = k then .ok ⟨pk, l1 ++ l2⟩ else pages i) startL lookL fuel) ∧
    (∀ (pages : Nat → Except Unit MoralisTxResp) (k : Nat) (cu : Option String)
       (l1 l2 : List MoralisTx) (d v : Int) (a : String)
       (startL lookL : Int) (fuel : Nat),
      _get_moralis_transaction_stats
          (fun i => if i = k then .ok ⟨cu, l1 ++ (⟨d, NULL_ADDRESS, a, v⟩ : MoralisTx) :: l2⟩
                    else pages i) startL lookL fuel
        = _get_moralis_transaction_stats
            (fun i => if i = k then .ok ⟨cu, l1 ++ l2⟩ else pages i) startL lookL fuel) ∧
    (∀ (pages : Nat → Except Unit MoralisTxResp) (k : Nat) (cu : Option String)
       (l1 l2 : List MoralisTx) (d v : Int) (a : String)
       (startL lookL : Int) (fuel : Nat),
      _get_moralis_transaction_stats
          (fun i => if i = k then .ok ⟨cu, l1 ++ (⟨d, a, NULL_ADDRESS, v⟩ : MoralisTx) :: l2⟩
                    else pages i) startL lookL fuel
        = _get_moralis_transaction_stats
            (fun i => if i = k then .ok ⟨cu, l1 ++ l2⟩ else pages i) startL lookL fuel) := by
  refine ⟨?_, ?_, ?_, ?_⟩
  · intro pages k pk l1 l2 d a v startL lookL fuel
    exact alchemyTxLoop_insert pages k pk l1 l2 _ (Or.inl rfl) startL lookL fuel 0 0
  · intro pages k pk l1 l2 d a v startL lookL fuel
    exact alchemyTxLoop_insert pages k pk l1 l2 _ (Or.inr rfl) startL lookL fuel 0 0
  · intro pages k cu l1 l2 d v a startL lookL fuel
    exact moralisTxLoop_insert pages k cu l1 l2 _ (Or.inl rfl) startL lookL fuel 0 0
  · intro pages k cu l1 l2 d v a startL lookL fuel
    exact moralisTxLoop_insert pages k cu l1 l2 _ (Or.inr rfl) startL lookL fuel 0 0

/-- Exact behaviour of the NFTPort inner loop: it scans only the prefix before
the first stopping record, adds the number of counted records of that prefix,
and reports whether a stopping record exists in the list. -/
theorem nftportTxGo_eq (startL lookL : Int) :
    ∀ (ts : List NftportTx) (sales : Int),
      nftportTxGo startL lookL ts sales =
        (sales + ((ts.takeWhile (fun t => !nftportTxStopsAt startL lookL t)).countP
            (nftportTxCountsAt startL lookL) : Nat),
         ts.any (nftportTxStopsAt startL lookL)) := by
  intro ts
  induction ts with
  | nil => intro sales; simp [nftportTxGo]
  | cons t ts ih =>
    intro sales
    by_cases h1 : startL < t.transaction_date
    · have hs : nftportTxStopsAt startL lookL t = false := by
        simp [nftportTxStopsAt, h1]
      have hc : nftportTxCountsAt startL lookL t = false := by
        simp [nftportTxCountsAt, h1]
      simp [nftportTxGo, h1, ih, List.takeWhile_cons, hs, List.countP_cons, hc]
    · by_cases h2 : t.transaction_date < lookL
      · have hs : nftportTxStopsAt startL lookL t = true := by
          simp [nftportTxStopsAt, h1, h2]
        simp [nftportTxGo, h1, h2, List.takeWhile_cons, hs]
      · have hs : nftportTxStopsAt startL lookL t = false := by
          simp [nftportTxStopsAt, h1, h2]
        have hc : nftportTxCountsAt startL lookL t = (t.type == "sale" && t.price_details) := by
          simp [nftportTxCountsAt, h1, h2]
        by_cases h3 : (t.type == "sale" && t.price_details) = true
        · simp only [nftportTxGo, if_neg h1, if_neg h2, if_pos h3]
          rw [ih (sales + 1)]
          simp [List.takeWhile_cons, hs, List.countP_cons, hc, h3]
          omega
        · simp only [nftportTxGo, if_neg h1, if_neg h2, if_neg h3]
          rw [ih sales]
          simp [List.takeWhile_cons, hs, List.countP_cons, hc, h3]

/-- Exact behaviour of the Moralis inner loop: same shape as the NFTPort one,
except that too-recent and zero-address records are both skipped before the
lookback check, so only a non-skipped old record stops the scan. -/
theorem moralisTxGo_eq (startL lookL : Int) :
    ∀ (ts : List MoralisTx) (sales : Int),
      moralisTxGo startL lookL ts sales =
        (sales + ((ts.takeWhile (fun t => !moralisTxStopsAt startL lookL t)).countP
            (moralisTxCountsAt startL lookL) : Nat),
         ts.any (moralisTxStopsAt startL lookL)) := by
  intro ts
  induction ts with
  | nil => intro sales; simp [moralisTxGo]
  | cons t ts ih =>
    intro sales
    by_cases h1 : startL < t.block_timestamp
    · have hs : moralisTxStopsAt startL lookL t = false := by
        simp [moralisTxStopsAt, moralisTxSkipsAt, h1]
      have hc : moralisTxCountsAt startL lookL t = false := by
        simp [moralisTxCountsAt, moralisTxSkipsAt, h1]
      simp [moralisTxGo, h1, ih, List.takeWhile_cons, hs, List.countP_cons, hc]
    · by_cases hz : (t.from_address == NULL_ADDRESS || t.to_address == NULL_ADDRESS) = true
      · have hs : moralisTxStopsAt startL lookL t = false := by
          simp [moralisTxStopsAt, moralisTxSkipsAt, hz]
        have hc : moralisTxCountsAt startL lookL t = false := by
          simp [moralisTxCountsAt, moralisTxSkipsAt, hz]
        simp only [moralisTxGo, if_neg h1, if_pos hz]
        rw [ih sales]
        simp [List.takeWhile_cons, hs, List.countP_cons, hc]
      · have hskip : moralisTxSkipsAt startL t = false := by
          simp [moralisTxSkipsAt, h1]
          simpa using hz
        by_cases h2 : t.block_timestamp < lookL
        · have hs : moralisTxStopsAt startL lookL t = true := by
            simp [moralisTxStopsAt, hskip, h2]
          simp only [moralisTxGo, if_neg h1, if_neg hz, if_pos h2]
          simp [List.takeWhile_cons, hs]
        · have hs : moralisTxStopsAt startL lookL t = false := by
            simp [moralisTxStopsAt, hskip, h2]
          have hc : moralisTxCountsAt startL lookL t = decide (0 < t.value) := by
            simp [moralisTxCountsAt, hskip, h2]
          by_cases h3 : 0 < t.value
          · simp only [moralisTxGo, if_neg h1, if_neg hz, if_neg h2, if_pos h3]
            rw [ih (sales + 1)]
            simp [List.takeWhile_cons, hs, List.countP_cons, hc, h3]
            omega
          · simp only [moralisTxGo, if_neg h1, if_neg hz, if_neg h2, if_neg h3]
            rw [ih sales]
            simp [List.takeWhile_cons, hs, List.countP_cons, hc, h3]

/-- Once a page sets the early-stop flag, the NFTPort outer loop returns that
page's accumulated count without consulting any later page. -/
theorem nftportTxLoop_stop (pages : Nat → Except Unit NftportTxResp)
    (startL lookL : Int) (idx : Nat) (r : NftportTxResp)
    (hr : pages idx = .ok r)
    (hstop : r.transactions.any (nftportTxStopsAt startL lookL) = true) :
    ∀ (fuel : Nat) (sales : Int),
      nftportTxLoop pages startL lookL (fuel + 1) idx sales
        = some (nftportTxGo startL lookL r.transactions sales).1 := by
  intro fuel sales
  have hflag : (nftportTxGo startL lookL r.transactions sales).2 = true := by
    rw [nftportTxGo_eq]; exact hstop
  simp only [nftportTxLoop, hr]
  by_cases h1 : isFalsyCursor r.continuation
  · simp [h1]
  · simp [h1, hflag]

/-- Once a page sets the early-stop flag, the Moralis outer loop returns that
page's accumulated count without consulting any later page. -/
theorem moralisTxLoop_stop (pages : Nat → Except Unit MoralisTxResp)
    (startL lookL : Int) (idx : Nat) (r : MoralisTxResp)
    (hr : pages idx = .ok r)
    (hstop : r.result.any (moralisTxStopsAt startL lookL) = true) :
    ∀ (fuel : Nat) (sales : Int),
      moralisTxLoop pages startL lookL (fuel + 1) idx sales
        = some (moralisTxGo startL lookL r.result sales).1 := by
  intro fuel sales
  have hflag : (moralisTxGo startL lookL r.result sales).2 = true := by
    rw [moralisTxGo_eq]; exact hstop
  simp only [moralisTxLoop, hr]
  by_cases h1 : isFalsyCursor r.cursor
  · simp [h1]
  · simp [h1, hflag]

/-- C6, corrected on the code: in the Moralis walk a zero-address record older
than the lookback limit does not stop the scan (the zero-address skip runs
first), so a later in-window sale on the same page is still counted: the walk
returns 1 where the claim (stop at the first record older than lookbackLimit
and exclude everything after it) demands 0. -/
theorem C6_counterexample :
    ((-5 : Int) < 0) ∧
    _get_moralis_transaction_stats
      (fun _ => .ok ⟨none, [⟨-5, NULL_ADDRESS, "0xb", 1⟩, ⟨5, "0xa", "0xb", 3⟩]⟩)
      10 0 3 = some 1 :=
  ⟨by decide, by decide⟩

/-- C6 (amended): a record is counted only if its timestamp lies in the closed
window [lookbackLimit, startLimit] (and meets the provider's sale test); a
too-recent record is skipped; the scan of a page stops at the first stopping
record, excluding it and every later record of the page; and once a page
contains a stopping record the outer loop returns without fetching any further
page.  For NFTPort a stopping record is any non-skipped record older than the
lookback limit; for Moralis (and Alchemy) zero-address records are skipped
before the lookback check, so only a non-zero-address, non-recent record older
than the lookback limit stops the walk. -/
theorem C6_amended :
    (∀ (startL lookL : Int) (ts : List NftportTx) (sales : Int),
      nftportTxGo startL lookL ts sales =
        (sales + ((ts.takeWhile (fun t => !nftportTxStopsAt startL lookL t)).countP
            (nftportTxCountsAt startL lookL) : Nat),
         ts.any (nftportTxStopsAt startL lookL))) ∧
    (∀ (pages : Nat → Except Unit NftportTxResp) (startL lookL : Int) (idx : Nat)
       (r : NftportTxResp), pages idx = .ok r →
       r.transactions.any (nftportTxStopsAt startL lookL) = true →
       ∀ (fuel : Nat) (sales : Int),
         nftportTxLoop pages startL lookL (fuel + 1) idx sales
           = some (nftportTxGo startL lookL r.transactions sales).1) ∧
    (∀ (startL lookL : Int) (ts : List MoralisTx) (sales : Int),
      moralisTxGo startL lookL ts sales =
        (sales + ((ts.takeWhile (fun t => !moralisTxStopsAt startL lookL t)).countP
            (moralisTxCountsAt startL lookL) : Nat),
         ts.any (moralisTxStopsAt startL lookL))) ∧
    (∀ (pages : Nat → Except Unit MoralisTxResp) (startL lookL : Int) (idx : Nat)
       (r : MoralisTxResp), pages idx = .ok r →
       r.result.any (moralisTxStopsAt startL lookL) = true →
       ∀ (fuel : Nat) (sales : Int),
         moralisTxLoop pages startL lookL (fuel + 1) idx sales
           = some (moralisTxGo startL lookL r.result sales).1) :=
  ⟨fun startL lookL => nftportTxGo_eq startL lookL,
   fun pages startL lookL idx r hr hstop => nftportTxLoop_stop pages startL lookL idx r hr hstop,
   fun startL lookL => moralisTxGo_eq startL lookL,
   fun pages startL lookL idx r hr hstop => moralisTxLoop_stop pages startL lookL idx r hr hstop⟩

/-- Witness for C6_amended: the hypothesis-bearing stop conjuncts applied to a
concrete one-page stream whose single record is older than the lookback
limit. -/
theorem C6_witness :
    (([(⟨-5, "sale", true, "", ""⟩ : NftportTx)].any (nftportTxStopsAt 10 0)) = true ∧
      nftportTxLoop (fun _ => .ok ⟨some "c", [⟨-5, "sale", true, "", ""⟩]⟩) 10 0 3 0 0
        = some (nftportTxGo 10 0 [⟨-5, "sale", true, "", ""⟩] 0).1) ∧
    (([(⟨-5, "0xa", "0xb", 1⟩ : MoralisTx)].any (moralisTxStopsAt 10 0)) = true ∧
      moralisTxLoop (fun _ => .ok ⟨some "c", [⟨-5, "0xa", "0xb", 1⟩]⟩) 10 0 3 0 0
        = some (moralisTxGo 10 0 [⟨-5, "0xa", "0xb", 1⟩] 0).1) :=
  ⟨⟨by decide,
    C6_amended.2.1 (fun _ => .ok ⟨some "c", [⟨-5, "sale", true, "", ""⟩]⟩) 10 0 0
      ⟨some "c", [⟨-5, "sale", true, "", ""⟩]⟩ rfl (by decide) 2 0⟩,
   ⟨by decide,
    C6_amended.2.2.2 (fun _ => .ok ⟨some "c", [⟨-5, "0xa", "0xb", 1⟩]⟩) 10 0 0
      ⟨some "c", [⟨-5, "0xa", "0xb", 1⟩]⟩ rfl (by decide) 2 0⟩⟩

/-- If every fetch succeeds with a page whose nfts list is non-empty, the
NFTPort listing loop never exits, whatever fuel it is given. -/
theorem nftportListLoop_no_cap (pages : Nat → Except Unit NftportListResp)
    (h : ∀ k, ∃ r, pages k = .ok r ∧ r.nfts ≠ []) :
    ∀ (fuel idx : Nat) (stats : ContractStats),
      nftportListLoop pages fuel idx stats = none := by
  intro fuel
  induction fuel with
  | zero => intro idx stats; rfl
  | succ fuel ih =>
    intro idx stats
    obtain ⟨r, hk, hne⟩ := h idx
    have hempty : r.nfts.isEmpty = false := by
      cases hnfts : r.nfts with
      | nil => exact absurd hnfts hne
      | cons a l => rfl
    simp only [nftportListLoop, hk, hempty]
    simp [ih]

/-- If every fetch succeeds with a truthy nextToken, the Alchemy listing loop
never exits, whatever fuel it is given. -/
theorem alchemyListLoop_no_cap (pages : Nat → Except Unit AlchemyListResp)
    (h : ∀ k, ∃ r, pages k = .ok r ∧ isFalsyCursor r.nextToken = false) :
    ∀ (fuel idx : Nat) (stats : ContractStats),
      alchemyListLoop pages fuel idx stats = none := by
  intro fuel
  induction fuel with
  | zero => intro idx stats; rfl
  | succ fuel ih =>
    intro idx stats
    obtain ⟨r, hk, hcur⟩ := h idx
    simp only [alchemyListLoop, hk, hcur]
    simp [ih]

/-- Lifting a loop non-termination fact through the wrapper function. -/
theorem get_nftport_contract_stats_of_loop_none (pages : Nat → Except Unit NftportListResp)
    (floor : Except Unit Bool) (fuel : Nat)
    (h : nftportListLoop pages fuel 1 ContractStats0 = none) :
    _get_nftport_contract_stats pages floor fuel = none := by
  unfold _get_nftport_contract_stats
  rw [h]

/-- Lifting a loop non-termination fact through the wrapper function. -/
theorem get_alchemy_contract_stats_of_loop_none (pages : Nat → Except Unit AlchemyListResp)
    (floor : Except Unit Bool) (fuel : Nat)
    (h : alchemyListLoop pages fuel 0 ContractStats0 = none) :
    _get_alchemy_contract_stats pages floor fuel = none := by
  unfold _get_alchemy_contract_stats
  rw [h]

/-- C1, corrected on the code: there is no safety page cap.  Against a
provider that always returns a non-empty page, _get_nftport_contract_stats
has still not produced a result after 1,000,000 pages (the cap the claim
says would stop the walk). -/
theorem C1_counterexample :
    _get_nftport_contract_stats (fun _ => .ok ⟨[⟨false, false⟩]⟩) (.ok false) 1000000
      = none :=
  get_nftport_contract_stats_of_loop_none _ _ 1000000
    (nftportListLoop_no_cap (fun _ => .ok ⟨[⟨false, false⟩]⟩)
      (fun k => ⟨⟨[⟨false, false⟩]⟩, rfl, by decide⟩) 1000000 1 ContractStats0)

/-- C1 (amended): each walk stops exactly when the provider signals the end of
the listing (falsy nfts page for NFTPort, falsy nextToken for Alchemy); there
is no page cap, so against a provider that never signals the end the walk does
not terminate within any page bound at all. -/
theorem C1_amended :
    (∀ (pages : Nat → Except Unit NftportListResp) (floor : Except Unit Bool) (fuel : Nat),
      (∀ k, ∃ r, pages k = .ok r ∧ r.nfts ≠ []) →
      _get_nftport_contract_stats pages floor fuel = none) ∧
    (∀ (pages : Nat → Except Unit AlchemyListResp) (floor : Except Unit Bool) (fuel : Nat),
      (∀ k, ∃ r, pages k = .ok r ∧ isFalsyCursor r.nextToken = false) →
      _get_alchemy_contract_stats pages floor fuel = none) ∧
    (∀ (pages : Nat → Except Unit NftportListResp) (r : NftportListResp) (fp : Bool) (fuel : Nat),
      pages 1 = .ok r → r.nfts = [] →
      _get_nftport_contract_stats pages (.ok fp) (fuel + 1)
        = some (setHasFloorPrice fp (_crunch_nftport_stats r ContractStats0))) := by
  refine ⟨?_, ?_, ?_⟩
  · intro pages floor fuel h
    exact get_nftport_contract_stats_of_loop_none pages floor fuel
      (nftportListLoop_no_cap pages h fuel 1 ContractStats0)
  · intro pages floor fuel h
    exact get_alchemy_contract_stats_of_loop_none pages floor fuel
      (alchemyListLoop_no_cap pages h fuel 0 ContractStats0)
  · intro pages r fp fuel hr hnil
    unfold _get_nftport_contract_stats
    simp only [nftportListLoop, hr, hnil]
    simp [List.isEmpty]

/-- Witness for C1_amended: concrete never-ending streams for NFTPort and
Alchemy, and a concrete first-page-empty stream that terminates at once. -/
theorem C1_witness :
    _get_nftport_contract_stats (fun _ => .ok ⟨[⟨true, true⟩]⟩) (.ok true) 5 = none ∧
    _get_alchemy_contract_stats (fun _ => .ok ⟨[], some "more"⟩) (.ok true) 5 = none ∧
    _get_nftport_contract_stats (fun _ => .ok ⟨[]⟩) (.ok true) 5
      = some (setHasFloorPrice true (_crunch_nftport_stats ⟨[]⟩ ContractStats0)) :=
  ⟨C1_amended.1 (fun _ => .ok ⟨[⟨true, true⟩]⟩) (.ok true) 5
      (fun k => ⟨⟨[⟨true, true⟩]⟩, rfl, by decide⟩),
   C1_amended.2.1 (fun _ => .ok ⟨[], some "more"⟩) (.ok true) 5
      (fun k => ⟨⟨[], some "more"⟩, rfl, by decide⟩),
   C1_amended.2.2 (fun _ => .ok ⟨[]⟩) ⟨[]⟩ true 4 rfl rfl⟩

/-- Closed form of the fold of globalStep: every total is the starting value
plus the sum of the corresponding per-record quantity. -/
theorem foldl_globalStep_eq (l : List CompareContractStats) :
    ∀ g : GlobalCompareContractStats,
      l.foldl globalStep g =
        { total_num_collections := g.total_num_collections + l.length
          total_token_supply := g.total_token_supply + (l.map (fun c => c.token_supply.getD 0)).sum
          nftport :=
            { total_num_nfts := g.nftport.total_num_nfts + (l.map (fun c => c.nftport.num_nfts)).sum
              total_num_has_metadata := g.nftport.total_num_has_metadata + (l.map (fun c => c.nftport.num_has_metadata)).sum
              total_num_has_cached_image := g.nftport.total_num_has_cached_image + (l.map (fun c => c.nftport.num_has_cached_image)).sum
              total_num_sale_transactions := g.nftport.total_num_sale_transactions + (l.map (fun c => c.nftport.num_sale_transactions)).sum
              total_collections_floor_price_found := g.nftport.total_collections_floor_price_found +
                (l.map (fun c => if c.nftport.has_floor_price then (1 : Int) else 0)).sum }
          alchemy :=
            { total_num_nfts := g.alchemy.total_num_nfts + (l.map (fun c => c.alchemy.num_nfts)).sum
              total_num_has_metadata := g.alchemy.total_num_has_metadata + (l.map (fun c => c.alchemy.num_has_metadata)).sum
              total_num_has_cached_image := g.alchemy.total_num_has_cached_image + (l.map (fun c => c.alchemy.num_has_cached_image)).sum
              total_num_sale_transactions := g.alchemy.total_num_sale_transactions + (l.map (fun c => c.alchemy.num_sale_transactions)).sum
              total_collections_floor_price_found := g.alchemy.total_collections_floor_price_found +
                (l.map (fun c => if c.alchemy.has_floor_price then (1 : Int) else 0)).sum }
          moralis :=
            { total_num_nfts := g.moralis.total_num_nfts + (l.map (fun c => c.moralis.num_nfts)).sum
              total_num_has_metadata := g.moralis.total_num_has_metadata + (l.map (fun c => c.moralis.num_has_metadata)).sum
              total_num_has_cached_image := g.moralis.total_num_has_cached_image + (l.map (fun c => c.moralis.num_has_cached_image)).sum
              total_num_sale_transactions := g.moralis.total_num_sale_transactions + (l.map (fun c => c.moralis.num_sale_transactions)).sum
              total_collections_floor_price_found := g.moralis.total_collections_floor_price_found +
                (l.map (fun c => if c.moralis.has_floor_price then (1 : Int) else 0)).sum }
          quicknode :=
            { total_num_nfts := g.quicknode.total_num_nfts + (l.map (fun c => c.quicknode.num_nfts)).sum
              total_num_has_metadata := g.quicknode.total_num_has_metadata + (l.map (fun c => c.quicknode.num_has_metadata)).sum
              total_num_has_cached_image := g.quicknode.total_num_has_cached_image + (l.map (fun c => c.quicknode.num_has_cached_image)).sum
              total_num_sale_transactions := g.quicknode.total_num_sale_transactions + (l.map (fun c => c.quicknode.num_sale_transactions)).sum
              total_collections_floor_price_found := g.quicknode.total_collections_floor_price_found +
                (l.map (fun c => if c.quicknode.has_floor_price then (1 : Int) else 0)).sum }
        } := by
  induction l with
  | nil => intro g; ext <;> simp
  | cons c l ih =>
    intro g
    rw [List.foldl_cons, ih (globalStep g c)]
    ext <;> simp [globalStep, globalStatsAdd] <;> push_cast <;> ring

/-- _calculate_global_stats in closed form: every total is the sum over the
records of the corresponding per-provider counter. -/
theorem calculate_global_stats_eq (l : List CompareContractStats) :
    _calculate_global_stats l =
      { total_num_collections := (l.length : Int)
        total_token_supply := (l.map (fun c => c.token_supply.getD 0)).sum
        nftport :=
          { total_num_nfts := (l.map (fun c => c.nftport.num_nfts)).sum
            total_num_has_metadata := (l.map (fun c => c.nftport.num_has_metadata)).sum
            total_num_has_cached_image := (l.map (fun c => c.nftport.num_has_cached_image)).sum
            total_num_sale_transactions := (l.map (fun c => c.nftport.num_sale_transactions)).sum
            total_collections_floor_price_found :=
              (l.map (fun c => if c.nftport.has_floor_price then (1 : Int) else 0)).sum }
        alchemy :=
          { total_num_nfts := (l.map (fun c => c.alchemy.num_nfts)).sum
            total_num_has_metadata := (l.map (fun c => c.alchemy.num_has_metadata)).sum
            total_num_has_cached_image := (l.map (fun c => c.alchemy.num_has_cached_image)).sum
            total_num_sale_transactions := (l.map (fun c => c.alchemy.num_sale_transactions)).sum
            total_collections_floor_price_found :=
              (l.map (fun c => if c.alchemy.has_floor_price then (1 : Int) else 0)).sum }
        moralis :=
          { total_num_nfts := (l.map (fun c => c.moralis.num_nfts)).sum
            total_num_has_metadata := (l.map (fun c => c.moralis.num_has_metadata)).sum
            total_num_has_cached_image := (l.map (fun c => c.moralis.num_has_cached_image)).sum
            total_num_sale_transactions := (l.map (fun c => c.moralis.num_sale_transactions)).sum
            total_collections_floor_price_found :=
              (l.map (fun c => if c.moralis.has_floor_price then (1 : Int) else 0)).sum }
        quicknode :=
          { total_num_nfts := (l.map (fun c => c.quicknode.num_nfts)).sum
            total_num_has_metadata := (l.map (fun c => c.quicknode.num_has_metadata)).sum
            total_num_has_cached_image := (l.map (fun c => c.quicknode.num_has_cached_image)).sum
            total_num_sale_transactions := (l.map (fun c => c.quicknode.num_sale_transactions)).sum
            total_collections_floor_price_found :=
              (l.map (fun c => if c.quicknode.has_floor_price then (1 : Int) else 0)).sum }
      } := by
  unfold _calculate_global_stats _calculate_global_stats_stateful initGlobalDefaults
  dsimp only
  rw [foldl_globalStep_eq]
  ext <;> simp

/-- C4: _calculate_global_stats returns exactly the componentwise sums over
the input records (with has_floor_price contributing 1 when true and
total_num_collections the number of records), and its result is unchanged by
any permutation of the input list. -/
theorem C4_thm :
    (∀ l : List CompareContractStats,
      _calculate_global_stats l =
        { total_num_collections := (l.length : Int)
          total_token_supply := (l.map (fun c => c.token_supply.getD 0)).sum
          nftport :=
            { total_num_nfts := (l.map (fun c => c.nftport.num_nfts)).sum
              total_num_has_metadata := (l.map (fun c => c.nftport.num_has_metadata)).sum
              total_num_has_cached_image := (l.map (fun c => c.nftport.num_has_cached_image)).sum
              total_num_sale_transactions := (l.map (fun c => c.nftport.num_sale_transactions)).sum
              total_collections_floor_price_found :=
                (l.map (fun c => if c.nftport.has_floor_price then (1 : Int) else 0)).sum }
          alchemy :=
            { total_num_nfts := (l.map (fun c => c.alchemy.num_nfts)).sum
              total_num_has_metadata := (l.map (fun c => c.alchemy.num_has_metadata)).sum
              total_num_has_cached_image := (l.map (fun c => c.alchemy.num_has_cached_image)).sum
              total_num_sale_transactions := (l.map (fun c => c.alchemy.num_sale_transactions)).sum
              total_collections_floor_price_found :=
                (l.map (fun c => if c.alchemy.has_floor_price then (1 : Int) else 0)).sum }
          moralis :=
            { total_num_nfts := (l.map (fun c => c.moralis.num_nfts)).sum
              total_num_has_metadata := (l.map (fun c => c.moralis.num_has_metadata)).sum
              total_num_has_cached_image := (l.map (fun c => c.moralis.num_has_cached_image)).sum
              total_num_sale_transactions := (l.map (fun c => c.moralis.num_sale_transactions)).sum
              total_collections_floor_price_found :=
                (l.map (fun c => if c.moralis.has_floor_price then (1 : Int) else 0)).sum }
          quicknode :=
            { total_num_nfts := (l.map (fun c => c.quicknode.num_nfts)).sum
              total_num_has_metadata := (l.map (fun c => c.quicknode.num_has_metadata)).sum
              total_num_has_cached_image := (l.map (fun c => c.quicknode.num_has_cached_image)).sum
              total_num_sale_transactions := (l.map (fun c => c.quicknode.num_sale_transactions)).sum
              total_collections_floor_price_found :=
                (l.map (fun c => if c.quicknode.has_floor_price then (1 : Int) else 0)).sum }
        }) ∧
    (∀ l1 l2 : List CompareContractStats, l1.Perm l2 →
      _calculate_global_stats l1 = _calculate_global_stats l2) := by
  refine ⟨calculate_global_stats_eq, ?_⟩
  intro l1 l2 h
  rw [calculate_global_stats_eq l1, calculate_global_stats_eq l2]
  have hsum : ∀ f : CompareContractStats → Int, (l1.map f).sum = (l2.map f).sum :=
    fun f => List.Perm.sum_eq (List.Perm.map f h)
  ext <;> simp [h.length_eq, hsum]

/-- Witness for C4_thm: a concrete two-element list and its swap. -/
theorem C4_witness :
    ([permDemoRecordA, permDemoRecordB].Perm [permDemoRecordB, permDemoRecordA]) ∧
    _calculate_global_stats [permDemoRecordA, permDemoRecordB]
      = _calculate_global_stats [permDemoRecordB, permDemoRecordA] :=
  ⟨by decide,
   C4_thm.2 [permDemoRecordA, permDemoRecordB] [permDemoRecordB, permDemoRecordA] (by decide)⟩

/-- C5 evaluated at the failing input: because the four provider fields of
GlobalCompareContractStats are dataclass defaults created once and shared, the
+= updates of one _calculate_global_stats call persist into the next call's
freshly constructed accumulator.  Two successive invocations on the same
one-record list return 1 and then 2 for nftport.total_num_nfts, so the second
result differs from the first: the function is not pure as the claim (and the
spec's stated intent) requires. -/
theorem C5_thm :
    (_calculate_global_stats_stateful initGlobalDefaults [aliasDemoRecord]).1.nftport.total_num_nfts = 1 ∧
    (_calculate_global_stats_stateful
        (_calculate_global_stats_stateful initGlobalDefaults [aliasDemoRecord]).2
        [aliasDemoRecord]).1.nftport.total_num_nfts = 2 ∧
    (_calculate_global_stats_stateful
        (_calculate_global_stats_stateful initGlobalDefaults [aliasDemoRecord]).2
        [aliasDemoRecord]).1
      ≠ (_calculate_global_stats_stateful initGlobalDefaults [aliasDemoRecord]).1 := by
  refine ⟨by decide, by decide, by decide⟩

/-- If the fetches for pages idx, idx+1, ... succeed with non-empty pages up
to page n-1 and page n raises, the NFTPort loop returns the fold of the
successful pages, flagged as aborted by the exception. -/
theorem nftportListLoop_error_partial (goodPages : Nat → NftportListResp) (n : Nat) :
    ∀ (cnt fuel idx : Nat) (s : ContractStats), idx + cnt = n → cnt < fuel →
      (∀ i, idx ≤ i → i < n → (goodPages i).nfts ≠ []) →
      nftportListLoop (fun i => if i < n then .ok (goodPages i) else .error ()) fuel idx s
        = some (crunchRange goodPages idx cnt s, true) := by
  intro cnt
  induction cnt with
  | zero =>
    intro fuel idx s hn hf _
    cases fuel with
    | zero => exact absurd hf (by omega)
    | succ fuel =>
      have hx : ¬idx < n := by omega
      simp only [nftportListLoop, if_neg hx]
      rfl
  | succ cnt ih =>
    intro fuel idx s hn hf hne
    cases fuel with
    | zero => exact absurd hf (by omega)
    | succ fuel =>
      have hx : idx < n := by omega
      have hnei : (goodPages idx).nfts ≠ [] := hne idx (le_refl idx) hx
      have hempty : (goodPages idx).nfts.isEmpty = false := by
        cases hnfts : (goodPages idx).nfts with
        | nil => exact absurd hnfts hnei
        | cons a l => rfl
      simp only [nftportListLoop, if_pos hx, hempty]
      rw [if_neg (by simp)]
      have := ih fuel (idx + 1) (_crunch_nftport_stats (goodPages idx) s)
        (by omega) (by omega) (fun i hi1 hi2 => hne i (by omega) hi2)
      rw [this]
      rfl

/-- C7: (a) when the NFTPort page fetch raises on page n of an address's walk
(pages 1 through n-1 having succeeded with non-empty pages),
_get_nftport_contract_stats still returns a value - the exception is caught -
and that value is exactly the accumulation of pages 1 through n-1 (the
floor-price lookup after the aborted loop is skipped); (b) whatever happened
inside the NFTPort inputs, the record processAddress builds carries for each
other provider exactly the stats its own standalone computation yields, so a
failing provider never disturbs the others. -/
theorem C7_thm :
    (∀ (goodPages : Nat → NftportListResp) (floor : Except Unit Bool) (n fuel : Nat),
      1 ≤ n → n ≤ fuel →
      (∀ i, 1 ≤ i → i < n → (goodPages i).nfts ≠ []) →
      _get_nftport_contract_stats
          (fun i => if i < n then .ok (goodPages i) else .error ()) floor fuel
        = some (crunchRange goodPages 1 (n - 1) ContractStats0)) ∧
    (∀ (address : String) (slug : Option String) (inp : AddressInputs)
       (startL lookL : Int) (fuel : Nat) (r : CompareContractStats),
      processAddress address slug inp false startL lookL fuel = some r →
      _get_alchemy_contract_stats inp.alchemyPages inp.alchemyFloor fuel = some r.alchemy ∧
      _get_moralis_contract_stats inp.moralisPages inp.moralisFloor fuel = some r.moralis ∧
      _get_quicknode_contract_stats inp.quicknodePages fuel = some r.quicknode) := by
  constructor
  · intro goodPages floor n fuel h1 h2 hne
    have hloop := nftportListLoop_error_partial goodPages n (n - 1) fuel 1 ContractStats0
      (by omega) (by omega) (fun i hi1 hi2 => hne i hi1 hi2)
    unfold _get_nftport_contract_stats
    rw [hloop]
  · intro address slug inp startL lookL fuel r h
    unfold processAddress at h
    cases hn : _get_nftport_contract_stats inp.nftportPages inp.nftportFloor fuel with
    | none => rw [hn] at h; simp at h
    | some ns =>
      rw [hn] at h
      cases ha : _get_alchemy_contract_stats inp.alchemyPages inp.alchemyFloor fuel with
      | none => rw [ha] at h; simp at h
      | some as_ =>
        rw [ha] at h
        cases hm : _get_moralis_contract_stats inp.moralisPages inp.moralisFloor fuel with
        | none => rw [hm] at h; simp at h
        | some ms => 
          rw [hm] at h
          cases hq : _get_quicknode_contract_stats inp.quicknodePages fuel with
          | none => rw [hq] at h; simp at h
          | some qs =>
            rw [hq] at h
            simp at h
            subst h
            exact ⟨by simpa using ha, by simpa using hm, by simpa using hq⟩

/-- Witness for C7_thm: a two-page stream whose second fetch raises, and the
concrete per-address run in which NFTPort fails at once while the other three
providers are still fully populated. -/
theorem C7_witness :
    ((1 : Nat) ≤ 2 ∧ (2 : Nat) ≤ 2 ∧
      _get_nftport_contract_stats
          (fun i => if i < 2 then .ok ⟨[⟨true, false⟩]⟩ else .error ()) (.ok true) 2
        = some (crunchRange (fun _ => ⟨[⟨true, false⟩]⟩) 1 1 ContractStats0)) ∧
    (processAddress "0xa" none demoAddressInputs false 0 0 1 = some demoRecord7 ∧
      _get_alchemy_contract_stats demoAddressInputs.alchemyPages
          demoAddressInputs.alchemyFloor 1 = some demoRecord7.alchemy ∧
      _get_moralis_contract_stats demoAddressInputs.moralisPages
          demoAddressInputs.moralisFloor 1 = some demoRecord7.moralis ∧
      _get_quicknode_contract_stats demoAddressInputs.quicknodePages 1
        = some demoRecord7.quicknode) :=
  ⟨⟨by decide, by decide,
    C7_thm.1 (fun _ => ⟨[⟨true, false⟩]⟩) (.ok true) 2 2 (by decide) (by decide)
      (fun i h1 h2 => by simp)⟩,
   by decide,
   C7_thm.2 "0xa" none demoAddressInputs 0 0 1 demoRecord7 (by decide)⟩

theorem pySlice_cons_zero (x : α) (l : List α) (n : Nat) :
    pySlice (x :: l) 0 n = x :: pySlice l (n - 1) n := rfl

theorem pySlice_cons_succ (x : α) (l : List α) (j n : Nat) :
    pySlice (x :: l) (j + 1) n = pySlice l j n := rfl

theorem getPatchesN_getD (l : List α) (n j : Nat) (hj : j < n) :
    (getPatchesN l n).getD j [] = pySlice l j n := by
  unfold getPatchesN
  have hlen : j < ((List.range n).map (fun i => pySlice l i n)).length := by
    simpa using hj
  rw [List.getD_eq_getElem _ _ hlen]
  simp

/-- Successor modulo a positive base, written without division. -/
theorem succ_mod_eq (i n : Nat) (hn : 1 ≤ n) :
    (i + 1) % n = if i % n + 1 = n then 0 else i % n + 1 := by
  have h1 : i % n < n := Nat.mod_lt _ (by omega)
  by_cases h2 : n = 1
  · subst h2; simp [Nat.mod_one]
  · have h3 : 1 % n = 1 := Nat.mod_eq_of_lt (by omega)
    rw [Nat.add_mod, h3]
    by_cases hc : i % n + 1 = n
    · rw [if_pos hc, hc, Nat.mod_self]
    · rw [if_neg hc, Nat.mod_eq_of_lt (by omega)]

/-- The element at index i of the input lands in shard i % n. -/
theorem mem_patch_of_get? :
    ∀ (l : List α) (n i : Nat) (x : α), 1 ≤ n → l.get? i = some x →
      x ∈ pySlice l (i % n) n := by
  intro l
  induction l with
  | nil => intro n i x _ h; simp at h
  | cons y l ih =>
    intro n i x hn h
    cases i with
    | zero =>
      simp at h
      subst h
      rw [Nat.zero_mod, pySlice_cons_zero]
      exact List.mem_cons_self _ _
    | succ i =>
      simp only [List.get?_cons_succ] at h
      have hx := ih n i x hn h
      have h1 : i % n < n := Nat.mod_lt _ (by omega)
      rw [succ_mod_eq i n hn]
      by_cases hc : i % n + 1 = n
      · rw [if_pos hc, pySlice_cons_zero]
        have : n - 1 = i % n := by omega
        rw [this]
        exact List.mem_cons_of_mem _ hx
      · rw [if_neg hc, pySlice_cons_succ]
        exact hx

/-- The shards of the empty list are all empty. -/
theorem getPatchesN_nil_flatten (n : Nat) : (getPatchesN ([] : List α) n).flatten = [] := by
  rw [List.flatten_eq_nil_iff]
  intro xs hxs
  unfold getPatchesN at hxs
  obtain ⟨i, _, rfl⟩ := List.mem_map.mp hxs
  cases i <;> rfl

/-- Joining all shards gives back the input list up to permutation. -/
theorem getPatchesN_flatten_perm :
    ∀ (l : List α) (n : Nat), 1 ≤ n → ((getPatchesN l n).flatten).Perm l := by
  intro l
  induction l with
  | nil => intro n hn; rw [getPatchesN_nil_flatten]
  | cons y l ih =>
    intro n hn
    obtain ⟨m, rfl⟩ : ∃ m, n = m + 1 := ⟨n - 1, by omega⟩
    have hhead : getPatchesN (y :: l) (m + 1)
        = (y :: pySlice l m (m + 1)) :: (List.range m).map (fun j => pySlice l j (m + 1)) := by
      unfold getPatchesN
      rw [List.range_succ_eq_map]
      rw [List.map_cons, List.map_map]
      congr 1
    have htail : (getPatchesN l (m + 1)).flatten
        = ((List.range m).map (fun j => pySlice l j (m + 1))).flatten ++ pySlice l m (m + 1) := by
      unfold getPatchesN
      rw [List.range_succ, List.map_append, List.flatten_append]
      simp
    rw [hhead]
    simp only [List.flatten_cons]
    refine List.Perm.trans ?_ ((ih (m + 1) hn).cons y)
    rw [htail]
    exact (List.perm_append_comm.cons y).symm

/-- C9: the sharding of _get_patches is round-robin: the element at index i of
the input list lands in shard i % n; joining the shards gives back exactly the
input list up to permutation (so the shards form a disjoint partition of the
input, counting multiplicity); and _get_patches is this construction at
n = PROCESS_COUNT. -/
theorem C9_thm :
    (∀ (α : Type) (l : List α) (n i : Nat) (x : α), 1 ≤ n → l.get? i = some x →
      x ∈ (getPatchesN l n).getD (i % n) []) ∧
    (∀ (α : Type) (l : List α) (n : Nat), 1 ≤ n → ((getPatchesN l n).flatten).Perm l) ∧
    (∀ (α : Type) (l : List α), _get_patches l = getPatchesN l PROCESS_COUNT) := by
  refine ⟨?_, ?_, ?_⟩
  · intro α l n i x hn h
    rw [getPatchesN_getD l n (i % n) (Nat.mod_lt _ (by omega))]
    exact mem_patch_of_get? l n i x hn h
  · intro α l n hn
    exact getPatchesN_flatten_perm l n hn
  · intro α l
    rfl

/-- Witness for C9_thm: the element at index 3 of a concrete five-element list
lands in shard 3 % 2 = 1, and the two shards flatten back to the input. -/
theorem C9_witness :
    ((1 : Nat) ≤ 2) ∧ (([10, 11, 12, 13, 14] : List Nat).get? 3 = some 13) ∧
    (13 ∈ (getPatchesN ([10, 11, 12, 13, 14] : List Nat) 2).getD (3 % 2) []) ∧
    ((getPatchesN ([10, 11, 12, 13, 14] : List Nat) 2).flatten).Perm [10, 11, 12, 13, 14] :=
  ⟨by decide, by decide,
   C9_thm.1 Nat [10, 11, 12, 13, 14] 2 3 13 (by decide) (by decide),
   C9_thm.2.1 Nat [10, 11, 12, 13, 14] 2 (by decide)⟩
